import Mathlib

/-!
Shallow embedding of src/communitybot/communitybot.py.

The program is a single-file Steem bot: a checkpointed block-ingestion loop
(`TransactionListener.run` / `process_block`), a per-block command scan
(`check_block`), a command handler for the "!welcome" command
(`handle_command`) and an upvote step (`upvote`), plus checkpoint
persistence helpers (`load_checkpoint` / `dump_checkpoint`).

External collaborators (the Steem read/write API, the `dataset` tables for
dedup records, the filesystem) are modelled as oracles in `Env`, explicit
`DB` state, and an `Effect` trace.  Python exceptions are modelled with
`Option PyErr` in result triples: `some e` means the call raised `e`,
`none` means it returned normally.
-/

namespace Communitybot

/-- Python exceptions relevant to this core:
`postDoesNotExist` models `steembase.exceptions.PostDoesNotExist`
(raised by the `Post(...)` constructor when the referenced post is gone);
`typeError` models the `TypeError` raised by evaluating
`'transactions' not in block_data` when `block_data` is `None`. -/
inductive PyErr where
  | postDoesNotExist
  | typeError
deriving DecidableEq, Repr

/-- A decoded `steem.post.Post` object, with the fields this program reads:
`post["author"]`, `post["permlink"]`, `post["body"]`,
`post.is_main_post()` and `post.root_identifier`. -/
structure PostData where
  author : String
  permlink : String
  body : String
  is_main_post : Bool
  root_identifier : String
deriving DecidableEq, Repr

/-- A row of the `welcome` table:
`dict(author=..., permlink=..., created_at=str(datetime.now()))`. -/
structure WelcomeRow where
  author : String
  permlink : String
  created_at : String
deriving DecidableEq, Repr

/-- A row of the `upvote` table (schema used by
`find_one(author=..., permlink=...)`; this program never inserts one). -/
structure UpvoteRow where
  author : String
  permlink : String
  created_at : String
deriving DecidableEq, Repr

/-- The two dedup tables reached through `self.get_table(...)`. -/
structure DB where
  welcome : List WelcomeRow
  upvote : List UpvoteRow
deriving DecidableEq, Repr

/-- A fetched block, as far as this program inspects it: `process_block`
only tests `'transactions' in block_data` before delegating to
`check_block`.  `hasTransactions` models that membership test. -/
structure Block where
  hasTransactions : Bool
deriving DecidableEq, Repr

/-- One entry of `steem.get_ops_in_block(...)`: the pair
`operation["op"][0:2]` of tag and payload.  For a `comment` tag,
`resolved` is the outcome of the `Post(raw_data)` constructor:
`none` models it raising `PostDoesNotExist`. -/
inductive Op where
  | comment (resolved : Option PostData)
  | other (tag : String)
deriving DecidableEq, Repr

/-- Configuration plus the external read-only collaborators:
`account` and `blacklisted_users` come from the config file,
`welcome_message` is the contents of the reply-template file,
`now` is `str(datetime.now())` (opaque here),
`resolvePost` models the `Post(identifier)` constructor
(`none` = raises `PostDoesNotExist`),
`vote_result` models the truthiness of `post.commit.vote(...)` for a
given (author, permlink), and
`ops_in_block` models `steem.get_ops_in_block(block_num, virtual_only=False)`. -/
structure Env where
  account : String
  blacklisted_users : List String
  welcome_message : String
  now : String
  resolvePost : String → Option PostData
  vote_result : String → String → Bool
  ops_in_block : Nat → List Op

/-- Observable calls made against the external world, in program order. -/
inductive Effect where
  | log_info (msg : String)
  | log_error (msg : String)
  | fetch_attempt (block_num : Nat)
  | reply (parent_author parent_permlink body author : String)
  | vote (author permlink : String) (weight : Int) (account : String)
  | save_state
  | save_checkpoint (block_num : Nat)
  | sleep
deriving DecidableEq, Repr

/-- If `pat` is a leading segment of `l`, return the remainder of `l`. -/
def stripPfx : List Char → List Char → Option (List Char)
  | [], l => some l
  | _ :: _, [] => none
  | a :: as, b :: bs => if a = b then stripPfx as bs else none

/-- The characters matched by the regex class `\s` (ASCII range). -/
def isPySpace (c : Char) : Bool :=
  c = ' ' || c = '\t' || c = '\n' || c = '\r' || c = '\x0b' || c = '\x0c'

/-- Does the regex `@<acct>\s!welcome` match at the head of `l`? -/
def welcomeAt (acct : List Char) (l : List Char) : Bool :=
  match stripPfx ('@' :: acct) l with
  | none => false
  | some rest =>
    match rest with
    | [] => false
    | c :: rest2 => isPySpace c && (stripPfx "!welcome".toList rest2).isSome

/-- Does the regex `@<acct>\s!welcome` match anywhere in the list? -/
def welcomeSearch (acct : List Char) : List Char → Bool
  | [] => false
  | c :: rest => welcomeAt acct (c :: rest) || welcomeSearch acct rest

/-- Truthiness of `re.findall("@%s\s!(welcome)" % account, body)`
(line 151 of the source): the pattern is the literal `@account`, then
exactly one whitespace character, then the literal `!welcome`. -/
def matchesWelcome (account body : String) : Bool :=
  welcomeSearch account.toList body.toList

/-- Substring containment, as Python `needle in hay` on strings. -/
def containsSub (needle : List Char) : List Char → Bool
  | [] => needle.isEmpty
  | c :: rest => (stripPfx needle (c :: rest)).isSome || containsSub needle rest

/-- Python `needle in hay` for strings. -/
def strContains (needle hay : String) : Bool :=
  containsSub needle.toList hay.toList

/-- Python `s.replace(pat, rep)` (all occurrences, non-overlapping,
left to right).  Structural recursion on a fuel initialised to the string
length; the fuel is enough whenever `pat` is nonempty, which holds for the
only pattern used by the program (`"$username"`). -/
def replaceAllGo (pat rep : List Char) : Nat → List Char → List Char
  | 0, l => l
  | _ + 1, [] => []
  | fuel + 1, c :: rest =>
    match stripPfx pat (c :: rest) with
    | some tail => rep ++ replaceAllGo pat rep fuel tail
    | none => c :: replaceAllGo pat rep fuel rest

/-- Python `s.replace(pat, rep)`. -/
def pyReplace (s pat rep : String) : String :=
  ⟨replaceAllGo pat.toList rep.toList s.toList.length s.toList⟩

/-- `self.get_table('welcome').find_one(author=author)` — note the lookup
is keyed by author alone (source line 154). -/
def welcomeFindByAuthor (db : DB) (author : String) : Option WelcomeRow :=
  db.welcome.find? (fun r => r.author == author)

/-- `self.get_table('upvote').find_one(author=..., permlink=...)`
(source line 134). -/
def upvoteFind (db : DB) (author permlink : String) : Option UpvoteRow :=
  db.upvote.find? (fun r => r.author == author && r.permlink == permlink)

/-- `TransactionListener.upvote` (source lines 131-143): skip when an
`upvote` row exists for (author, permlink); otherwise submit a +80 vote
and log an error on a falsy result.  No row is ever inserted here. -/
def upvote (env : Env) (db : DB) (post : PostData) : DB × List Effect :=
  if (upvoteFind db post.author post.permlink).isSome then
    (db, [Effect.log_info "Already voted. Skipping."])
  else
    let resp := env.vote_result post.author post.permlink
    if resp then
      (db, [Effect.vote post.author post.permlink 80 env.account])
    else
      (db, [Effect.vote post.author post.permlink 80 env.account,
            Effect.log_error "Failed upvoting."])

/-- `TransactionListener.handle_command` (source lines 145-180).
Order of operations, as in the source: blacklist check; regex match;
`Post(post.root_identifier)` (may raise `PostDoesNotExist`, which is not
caught here); `welcome` lookup by the root author; reply; root-post
check (after the reply); upvote step; `welcome` insert. -/
def handle_command (env : Env) (db : DB) (post : PostData) :
    DB × List Effect × Option PyErr :=
  if env.blacklisted_users.contains post.author then
    (db, [Effect.log_info "User on blacklist. Skipping"], none)
  else if matchesWelcome env.account post.body then
    match env.resolvePost post.root_identifier with
    | none => (db, [], some PyErr.postDoesNotExist)
    | some main_post =>
      if (welcomeFindByAuthor db main_post.author).isSome then
        (db, [Effect.log_info "already welcomed. Skipping"], none)
      else
        let body := pyReplace env.welcome_message "$username" main_post.author
        let replyEff := Effect.reply main_post.author main_post.permlink body env.account
        if ¬ main_post.is_main_post then
          (db, [replyEff, Effect.log_info "Skipping. Not a main post."], none)
        else
          let up := upvote env db main_post
          let db3 : DB :=
            { up.1 with welcome := up.1.welcome ++
                [{ author := main_post.author, permlink := main_post.permlink,
                   created_at := env.now }] }
          (db3, replyEff :: (up.2 ++ [Effect.log_info "Replied and upvoted"]), none)
  else
    (db, [], none)

/-- `TransactionListener.check_block` (source lines 182-197): iterate the
block's operations; for a comment, `Post(raw_data)` raising
`PostDoesNotExist` is caught and the loop continues; main posts are
skipped; otherwise, if the body contains `@account`, `handle_command`
runs (outside the try block, so its exceptions propagate). -/
def check_block (env : Env) : DB → List Op → DB × List Effect × Option PyErr
  | db, [] => (db, [], none)
  | db, op :: rest =>
    match op with
    | Op.other _ => check_block env db rest
    | Op.comment none => check_block env db rest
    | Op.comment (some post) =>
      if post.is_main_post then check_block env db rest
      else if strContains ("@" ++ env.account) post.body then
        match handle_command env db post with
        | (db2, effs, some e) => (db2, effs, some e)
        | (db2, effs, none) =>
          let r := check_block env db2 rest
          (r.1, effs ++ r.2.1, r.2.2)
      else check_block env db rest

/-- `TransactionListener.process_block` (source lines 89-109).
`fetch rc` is the result of the `self.steem.get_block(block_num)` call
made by the frame whose `retry_count` is `rc` (`none` models Python
`None`).  On an empty fetch with `retry_count > 3` the frame logs and
returns; otherwise it logs and re-enters itself with `retry_count + 1`.
The source has no `return` after that recursive call, so when the inner
frame returns normally the outer frame falls through, logs
'Processing block', and then evaluates `'transactions' not in block_data`
with `block_data = None`, raising `TypeError`.  If the recursive call
raised, the exception propagates immediately. -/
def process_block (env : Env) (fetch : Nat → Option Block) (db : DB)
    (block_num : Nat) (retry_count : Nat) : DB × List Effect × Option PyErr :=
  match fetch retry_count with
  | none =>
    if _h : retry_count > 3 then
      (db, [Effect.fetch_attempt block_num,
            Effect.log_error "Retried 3 times to get this block. Skipping."], none)
    else
      let inner := process_block env fetch db block_num (retry_count + 1)
      match inner with
      | (db2, effs, some e) =>
        (db2, Effect.fetch_attempt block_num ::
              Effect.log_error "Couldnt read the block. Retrying." :: effs, some e)
      | (db2, effs, none) =>
        (db2, (Effect.fetch_attempt block_num ::
               Effect.log_error "Couldnt read the block. Retrying." :: effs) ++
              [Effect.log_info "Processing block"], some PyErr.typeError)
  | some bd =>
    if ¬ bd.hasTransactions then
      (db, [Effect.fetch_attempt block_num, Effect.log_info "Processing block"], none)
    else
      match check_block env db (env.ops_in_block block_num) with
      | (db2, effs, some e) =>
        (db2, Effect.fetch_attempt block_num :: Effect.log_info "Processing block" :: effs,
         some e)
      | (db2, effs, none) =>
        (db2, (Effect.fetch_attempt block_num :: Effect.log_info "Processing block" :: effs)
              ++ [Effect.save_state], none)
termination_by 4 - retry_count
decreasing_by omega

/-- `load_checkpoint` (source lines 43-57) against a modelled file:
`stored` is the current file contents (`none` = `FileNotFoundError`), in
which case the fallback is dumped and re-read.  Returns the loaded value
and the file contents afterwards. -/
def load_checkpoint (stored : Option Nat) (fallback_block_num : Nat) : Nat × Option Nat :=
  match stored with
  | some v => (v, some v)
  | none => (fallback_block_num, some fallback_block_num)

/-- The body of `TransactionListener.run` (source lines 119-129).  Each
element of `heads` is one observation of `self.last_block_num` at one
evaluation of the inner `while` condition; when `head - last_block > 0`
the next block is processed and (if `process_block` returned normally)
the checkpoint is dumped; when caught up the loop sleeps and re-checks.
An exception from `process_block` propagates and ends the run, with the
checkpoint not advanced for that block.  The trace, final db, error and
final checkpoint are returned; the supply of head observations running
out models external process termination. -/
def run_loop (env : Env) (fetch : Nat → Nat → Option Block) :
    DB → List Nat → Nat → DB × List Effect × Option PyErr × Nat
  | db, [], last_block => (db, [], none, last_block)
  | db, head :: heads, last_block =>
    if head - last_block > 0 then
      match process_block env (fetch (last_block + 1)) db (last_block + 1) 0 with
      | (db2, effs, some e) => (db2, effs, some e, last_block)
      | (db2, effs, none) =>
        let r := run_loop env fetch db2 heads (last_block + 1)
        (r.1, effs ++ Effect.save_checkpoint (last_block + 1) :: r.2.1, r.2.2.1, r.2.2.2)
    else
      let r := run_loop env fetch db heads last_block
      (r.1, Effect.sleep :: r.2.1, r.2.2.1, r.2.2.2)

/-- `TransactionListener.run` (source lines 111-129): resolve the starting
block from `start_from` or `load_checkpoint` (with the current head as
fallback), then run the loop. -/
def run (env : Env) (fetch : Nat → Nat → Option Block) (db : DB)
    (heads : List Nat) (stored : Option Nat) (head0 : Nat)
    (start_from : Option Nat) : DB × List Effect × Option PyErr × Nat :=
  let last_block :=
    match start_from with
    | none => (load_checkpoint stored head0).1
    | some s => s
  run_loop env fetch db heads last_block

/-- Sequence of checkpoint values dumped, in order. -/
def checkpointWrites : List Effect → List Nat
  | [] => []
  | Effect.save_checkpoint n :: rest => n :: checkpointWrites rest
  | _ :: rest => checkpointWrites rest

/-- Number of `get_block` calls in a trace. -/
def countFetches : List Effect → Nat
  | [] => 0
  | Effect.fetch_attempt _ :: rest => countFetches rest + 1
  | _ :: rest => countFetches rest

/-- Number of `logger.error` lines in a trace. -/
def countErrorLogs : List Effect → Nat
  | [] => 0
  | Effect.log_error _ :: rest => countErrorLogs rest + 1
  | _ :: rest => countErrorLogs rest

/-- Number of replies submitted in a trace. -/
def countReplies : List Effect → Nat
  | [] => 0
  | Effect.reply _ _ _ _ :: rest => countReplies rest + 1
  | _ :: rest => countReplies rest

/-- Number of votes submitted in a trace. -/
def countVotes : List Effect → Nat
  | [] => 0
  | Effect.vote _ _ _ _ :: rest => countVotes rest + 1
  | _ :: rest => countVotes rest

/-- The list `start, start+1, ..., start+k-1`. -/
def consecFrom : Nat → Nat → List Nat
  | _, 0 => []
  | start, k + 1 => start :: consecFrom (start + 1) k

/-! Concrete scenario data used to evaluate the code at specific inputs. -/

/-- Empty dedup tables (fresh deployment). -/
def dbEmpty : DB := { welcome := [], upvote := [] }

/-- A plain configuration for account `bot`: empty blacklist, no resolvable
posts, no operations in any block. -/
def envPlain : Env where
  account := "bot"
  blacklisted_users := []
  welcome_message := "Welcome $username!"
  now := "2017-06-01 10:00:00"
  resolvePost := fun _ => none
  vote_result := fun _ _ => false
  ops_in_block := fun _ => []

/-- A fetch oracle whose blocks always arrive, each containing a
`transactions` key. -/
def fetchOK : Nat → Nat → Option Block := fun _ _ => some { hasTransactions := true }

/-- The trace produced by `process_block` on block 96 when every
`get_block` call returns `None`. -/
def failTrace96 : List Effect :=
  [Effect.fetch_attempt 96, Effect.log_error "Couldnt read the block. Retrying.",
   Effect.fetch_attempt 96, Effect.log_error "Couldnt read the block. Retrying.",
   Effect.fetch_attempt 96, Effect.log_error "Couldnt read the block. Retrying.",
   Effect.fetch_attempt 96, Effect.log_error "Couldnt read the block. Retrying.",
   Effect.fetch_attempt 96, Effect.log_error "Retried 3 times to get this block. Skipping.",
   Effect.log_info "Processing block"]

/-- A reply invoking the welcome command whose thread's root post has been
deleted. -/
def postGoneRoot : PostData where
  author := "carol"
  permlink := "re-gone"
  body := "@bot !welcome"
  is_main_post := false
  root_identifier := "@dave/gone"

/-- Environment for the deleted-root scenario: block 96 carries the
invocation, and no post resolves (the root post no longer exists). -/
def envGoneRoot : Env where
  account := "bot"
  blacklisted_users := []
  welcome_message := "Welcome $username!"
  now := "2017-06-01 10:00:00"
  resolvePost := fun _ => none
  vote_result := fun _ _ => true
  ops_in_block := fun n => if n = 96 then [Op.comment (some postGoneRoot)] else []

/-- A root post by a fresh author. -/
def rootFresh : PostData where
  author := "newcomer"
  permlink := "intro"
  body := "hello steemit"
  is_main_post := true
  root_identifier := "@newcomer/intro"

/-- A reply under `rootFresh` invoking the welcome command. -/
def postCmdFresh : PostData where
  author := "helper"
  permlink := "re-intro"
  body := "@bot !welcome"
  is_main_post := false
  root_identifier := "@newcomer/intro"

/-- Environment where `rootFresh` resolves and votes succeed. -/
def envFresh : Env where
  account := "bot"
  blacklisted_users := []
  welcome_message := "Welcome $username!"
  now := "2017-06-01 10:00:00"
  resolvePost := fun s => if s = "@newcomer/intro" then some rootFresh else none
  vote_result := fun _ _ => true
  ops_in_block := fun _ => []

/-- A root post by `alice` with permlink `b` (resource B). -/
def rootAliceB : PostData where
  author := "alice"
  permlink := "b"
  body := "my second post"
  is_main_post := true
  root_identifier := "@alice/b"

/-- A reply under `rootAliceB` invoking the welcome command. -/
def postCmdAliceB : PostData where
  author := "dave"
  permlink := "re-b"
  body := "@bot !welcome"
  is_main_post := false
  root_identifier := "@alice/b"

/-- Environment where `rootAliceB` resolves. -/
def envAlice : Env where
  account := "bot"
  blacklisted_users := []
  welcome_message := "Welcome $username!"
  now := "2017-06-01 10:00:00"
  resolvePost := fun s => if s = "@alice/b" then some rootAliceB else none
  vote_result := fun _ _ => true
  ops_in_block := fun _ => []

/-- Dedup state holding a `welcome` record for `alice`, but for her other
resource `a`. -/
def dbAliceA : DB :=
  { welcome := [{ author := "alice", permlink := "a", created_at := "2017-05-01" }],
    upvote := [] }

/-- A non-root post by `bob` resolving to a non-root subject. -/
def rootlessSubject : PostData where
  author := "bob"
  permlink := "re-thread"
  body := "some reply"
  is_main_post := false
  root_identifier := "@bob/re-thread"

/-- A reply invoking the welcome command whose resolved subject is not a
root post. -/
def postCmdNonRoot : PostData where
  author := "erin"
  permlink := "re-re"
  body := "@bot !welcome"
  is_main_post := false
  root_identifier := "@bob/re-thread"

/-- Environment where `rootlessSubject` resolves (as a non-root post). -/
def envNonRoot : Env where
  account := "bot"
  blacklisted_users := []
  welcome_message := "Welcome $username!"
  now := "2017-06-01 10:00:00"
  resolvePost := fun s => if s = "@bob/re-thread" then some rootlessSubject else none
  vote_result := fun _ _ => true
  ops_in_block := fun _ => []

/-- Environment blacklisting `spammer`. -/
def envBlk : Env where
  account := "bot"
  blacklisted_users := ["spammer"]
  welcome_message := "Welcome $username!"
  now := "2017-06-01 10:00:00"
  resolvePost := fun _ => none
  vote_result := fun _ _ => true
  ops_in_block := fun _ => []

/-- A command-matching reply authored by the blacklisted `spammer`. -/
def postSpam : PostData where
  author := "spammer"
  permlink := "re-spam"
  body := "@bot !welcome"
  is_main_post := false
  root_identifier := "@victim/post"

/-- A root (main) post containing a welcome command in its body. -/
def rootWithCmd : PostData where
  author := "rooter"
  permlink := "main"
  body := "@bot !welcome"
  is_main_post := true
  root_identifier := "@rooter/main"

/-- A reply whose body does not mention the bot account. -/
def replyNoMention : PostData where
  author := "chatter"
  permlink := "re-chat"
  body := "nice post, thanks"
  is_main_post := false
  root_identifier := "@someone/post"

/-! Helper lemmas shared by the claim theorems. -/

theorem checkpointWrites_append (l1 l2 : List Effect) :
    checkpointWrites (l1 ++ l2) = checkpointWrites l1 ++ checkpointWrites l2 := by
  induction l1 with
  | nil => rfl
  | cons e rest ih => cases e <;> simp [checkpointWrites, ih]

theorem upvote_no_ckpt (env : Env) (db : DB) (p : PostData) :
    checkpointWrites (upvote env db p).2 = [] := by
  unfold upvote
  split
  · rfl
  · by_cases hr : env.vote_result p.author p.permlink <;> simp [hr, checkpointWrites]

theorem handle_command_no_ckpt (env : Env) (db : DB) (p : PostData) :
    checkpointWrites (handle_command env db p).2.1 = [] := by
  unfold handle_command
  split
  · rfl
  · split
    · split
      · rfl
      · split
        · rfl
        · split
          · rfl
          · simp [checkpointWrites, checkpointWrites_append, upvote_no_ckpt]
    · rfl

theorem check_block_no_ckpt (env : Env) : ∀ (ops : List Op) (db : DB),
    checkpointWrites (check_block env db ops).2.1 = [] := by
  intro ops
  induction ops with
  | nil => intro db; rfl
  | cons op rest ih =>
    intro db
    match op with
    | Op.other t => exact ih db
    | Op.comment none => exact ih db
    | Op.comment (some post) =>
      by_cases hmain : post.is_main_post
      · have heq : check_block env db (Op.comment (some post) :: rest) =
            check_block env db rest := by
          conv_lhs => unfold check_block
          simp [hmain]
        rw [heq]; exact ih db
      · by_cases hment : strContains ("@" ++ env.account) post.body
        · rcases hhc : handle_command env db post with ⟨db2, effs, err⟩
          have hcw : checkpointWrites effs = [] := by
            have h2 := handle_command_no_ckpt env db post
            rw [hhc] at h2; exact h2
          cases err with
          | some e =>
            have heq : check_block env db (Op.comment (some post) :: rest) =
                (db2, effs, some e) := by
              conv_lhs => unfold check_block
              simp [hmain, hment, hhc]
            rw [heq]; exact hcw
          | none =>
            have heq : check_block env db (Op.comment (some post) :: rest) =
                ((check_block env db2 rest).1, effs ++ (check_block env db2 rest).2.1,
                 (check_block env db2 rest).2.2) := by
              conv_lhs => unfold check_block
              simp [hmain, hment, hhc]
            rw [heq]
            simp [checkpointWrites_append, hcw, ih db2]
        · have heq : check_block env db (Op.comment (some post) :: rest) =
              check_block env db rest := by
            conv_lhs => unfold check_block
            simp [hmain, hment]
          rw [heq]; exact ih db

theorem process_block_no_ckpt (env : Env) (fetch : Nat → Option Block) (db : DB)
    (n : Nat) : ∀ (fuel rc : Nat), 4 - rc ≤ fuel →
    checkpointWrites (process_block env fetch db n rc).2.1 = [] := by
  intro fuel
  induction fuel with
  | zero =>
    intro rc h
    have hrc : rc > 3 := by omega
    unfold process_block
    cases hf : fetch rc with
    | none => simp [hrc, checkpointWrites]
    | some bd =>
      by_cases ht : bd.hasTransactions
      · rcases hcb : check_block env db (env.ops_in_block n) with ⟨db2, effs, err⟩
        have hcw : checkpointWrites effs = [] := by
          have h2 := check_block_no_ckpt env (env.ops_in_block n) db
          rw [hcb] at h2; exact h2
        cases err <;> simp [ht, hcb, checkpointWrites, checkpointWrites_append, hcw]
      · simp [ht, checkpointWrites]
  | succ f ihf =>
    intro rc h
    unfold process_block
    cases hf : fetch rc with
    | none =>
      by_cases hrc : rc > 3
      · simp [hrc, checkpointWrites]
      · have hinner := ihf (rc + 1) (by omega)
        rcases hpb : process_block env fetch db n (rc + 1) with ⟨db2, effs, err⟩
        rw [hpb] at hinner
        cases err <;>
          simp [hrc, hpb, checkpointWrites, checkpointWrites_append, hinner]
    | some bd =>
      by_cases ht : bd.hasTransactions
      · rcases hcb : check_block env db (env.ops_in_block n) with ⟨db2, effs, err⟩
        have hcw : checkpointWrites effs = [] := by
          have h2 := check_block_no_ckpt env (env.ops_in_block n) db
          rw [hcb] at h2; exact h2
        cases err <;> simp [ht, hcb, checkpointWrites, checkpointWrites_append, hcw]
      · simp [ht, checkpointWrites]

theorem run_loop_writes (env : Env) (fetch : Nat → Nat → Option Block) :
    ∀ (heads : List Nat) (db : DB) (last : Nat),
      ∃ k, checkpointWrites (run_loop env fetch db heads last).2.1 =
        consecFrom (last + 1) k := by
  intro heads
  induction heads with
  | nil => intro db last; exact ⟨0, rfl⟩
  | cons h hs ih =>
    intro db last
    by_cases hc : last < h
    · rcases hpb : process_block env (fetch (last + 1)) db (last + 1) 0 with ⟨db2, effs, err⟩
      have hcw : checkpointWrites effs = [] := by
        have h2 := process_block_no_ckpt env (fetch (last + 1)) db (last + 1) 4 0 (by omega)
        rw [hpb] at h2; exact h2
      cases err with
      | some e =>
        have heq : run_loop env fetch db (h :: hs) last = (db2, effs, some e, last) := by
          conv_lhs => unfold run_loop
          simp [hc, hpb]
        rw [heq]
        exact ⟨0, by simpa [consecFrom] using hcw⟩
      | none =>
        obtain ⟨k, hk⟩ := ih db2 (last + 1)
        have heq : run_loop env fetch db (h :: hs) last =
            ((run_loop env fetch db2 hs (last + 1)).1,
             effs ++ Effect.save_checkpoint (last + 1) ::
               (run_loop env fetch db2 hs (last + 1)).2.1,
             (run_loop env fetch db2 hs (last + 1)).2.2.1,
             (run_loop env fetch db2 hs (last + 1)).2.2.2) := by
          conv_lhs => unfold run_loop
          simp [hc, hpb]
        rw [heq]
        refine ⟨k + 1, ?_⟩
        simp [checkpointWrites_append, hcw, checkpointWrites, hk, consecFrom]
    · have heq : run_loop env fetch db (h :: hs) last =
          ((run_loop env fetch db hs last).1,
           Effect.sleep :: (run_loop env fetch db hs last).2.1,
           (run_loop env fetch db hs last).2.2.1,
           (run_loop env fetch db hs last).2.2.2) := by
        conv_lhs => unfold run_loop
        simp [hc]
      obtain ⟨k, hk⟩ := ih db last
      rw [heq]
      exact ⟨k, by simp [checkpointWrites, hk]⟩

theorem consecFrom_chain : ∀ (k start : Nat),
    List.Chain' (fun a b => a < b) (consecFrom start k)
  | 0, _ => by simp [consecFrom]
  | 1, _ => by simp [consecFrom]
  | k + 2, start => by
    have h2 := consecFrom_chain (k + 1) (start + 1)
    rw [consecFrom] at h2
    rw [consecFrom, consecFrom, List.chain'_cons]
    exact ⟨Nat.lt_succ_self start, h2⟩

/-! Claim theorems. -/

/-- Claim C1: the claim says an always-empty unit fetch yields exactly 4
fetch attempts, one error log, a skip, and a checkpoint advance.  The code
instead makes 5 `get_block` calls and logs 5 error lines, and because the
recursive retry call is not followed by `return`, the outer frames fall
through to `'transactions' not in block_data` with `block_data = None`,
raising `TypeError`; in the run loop the exception propagates, so the
block's checkpoint is never dumped (final checkpoint stays 95). -/
theorem c1_retry_exhaustion_crash :
    process_block envPlain (fun _ => none) dbEmpty 96 0 =
      (dbEmpty, failTrace96, some PyErr.typeError)
    ∧ countFetches failTrace96 = 5
    ∧ countErrorLogs failTrace96 = 5
    ∧ run_loop envPlain (fun _ _ => none) dbEmpty [100] 95 =
        (dbEmpty, failTrace96, some PyErr.typeError, 95)
    ∧ checkpointWrites failTrace96 = [] := by
  have h1 : process_block envPlain (fun _ => none) dbEmpty 96 0 =
      (dbEmpty, failTrace96, some PyErr.typeError) := by
    simp [process_block, failTrace96]
  refine ⟨h1, by decide, by decide, ?_, by decide⟩
  conv_lhs => unfold run_loop
  simp [h1]

/-- Claim C2: the claim says a welcome command whose root post no longer
exists is abandoned non-fatally and the loop continues.  In the code the
`try/except PostDoesNotExist` in `check_block` only wraps
`Post(raw_data)`; the `Post(post.root_identifier)` call inside
`handle_command` is outside it, so the exception propagates through
`check_block` and `process_block` and terminates the run loop without
advancing the checkpoint. -/
theorem c2_unresolved_root_crashes_loop :
    handle_command envGoneRoot dbEmpty postGoneRoot =
      (dbEmpty, [], some PyErr.postDoesNotExist)
    ∧ run_loop envGoneRoot fetchOK dbEmpty [100] 95 =
        (dbEmpty, [Effect.fetch_attempt 96, Effect.log_info "Processing block"],
         some PyErr.postDoesNotExist, 95)
    ∧ checkpointWrites (run_loop envGoneRoot fetchOK dbEmpty [100] 95).2.1 = [] := by
  have h0 : handle_command envGoneRoot dbEmpty postGoneRoot =
      (dbEmpty, [], some PyErr.postDoesNotExist) := by decide
  have h1 : process_block envGoneRoot (fetchOK 96) dbEmpty 96 0 =
      (dbEmpty, [Effect.fetch_attempt 96, Effect.log_info "Processing block"],
       some PyErr.postDoesNotExist) := by
    unfold process_block
    decide
  have h2 : run_loop envGoneRoot fetchOK dbEmpty [100] 95 =
      (dbEmpty, [Effect.fetch_attempt 96, Effect.log_info "Processing block"],
       some PyErr.postDoesNotExist, 95) := by
    conv_lhs => unfold run_loop
    simp [h1]
  exact ⟨h0, h2, by rw [h2]; rfl⟩

/-- Claim C3 counterexample: the claim says `"@bot!welcome"` (no
whitespace between the mention and the command token) matches, but the
pattern `@bot\s!(welcome)` requires exactly one whitespace character, so
it does not match. -/
theorem c3_counterexample : matchesWelcome "bot" "@bot!welcome" = false := by decide

/-- Claim C3 amended: `"hello @bot !welcome friend"` matches,
`"@bot!welcome"` does not match (one whitespace character is mandatory
between the mention and the `!`), and `"@bot welcome"` (missing `!`)
does not match. -/
theorem c3_pattern_match :
    matchesWelcome "bot" "hello @bot !welcome friend" = true
    ∧ matchesWelcome "bot" "@bot!welcome" = false
    ∧ matchesWelcome "bot" "@bot welcome" = false := by decide

/-- Claim C4: the claim says a successful vote is followed by an `upvote`
dedup record.  Evaluating a fresh welcome command on a root post whose
vote succeeds: exactly one vote is submitted, a `welcome` row is
inserted, but the `upvote` table stays empty — the code never inserts
into the table that `upvote`'s skip check reads. -/
theorem c4_no_upvote_record_written :
    handle_command envFresh dbEmpty postCmdFresh =
      ({ welcome := [{ author := "newcomer", permlink := "intro",
                       created_at := "2017-06-01 10:00:00" }], upvote := [] },
       [Effect.reply "newcomer" "intro" "Welcome newcomer!" "bot",
        Effect.vote "newcomer" "intro" 80 "bot",
        Effect.log_info "Replied and upvoted"], none)
    ∧ (handle_command envFresh dbEmpty postCmdFresh).1.upvote = []
    ∧ countVotes (handle_command envFresh dbEmpty postCmdFresh).2.1 = 1 := by decide

/-- Claim C5: once a `welcome` dedup record for the command's resolved
subject author has been committed, reprocessing the same command performs
no reply and no vote: the author-keyed lookup hits and the handler
returns before any side effect. -/
theorem c5_second_processing_no_side_effects (env : Env) (db : DB) (post : PostData)
    (h : ∀ mp, env.resolvePost post.root_identifier = some mp →
        (welcomeFindByAuthor db mp.author).isSome = true) :
    countReplies (handle_command env db post).2.1 = 0
    ∧ countVotes (handle_command env db post).2.1 = 0 := by
  unfold handle_command
  by_cases hbl : post.author ∈ env.blacklisted_users
  · simp [hbl, countReplies, countVotes]
  · by_cases hm : matchesWelcome env.account post.body
    · cases hres : env.resolvePost post.root_identifier with
      | none => simp [hbl, hm, hres, countReplies, countVotes]
      | some mp => simp [hbl, hm, hres, h mp hres, countReplies, countVotes]
    · simp [hbl, hm, countReplies, countVotes]

/-- Claim C5 witness: concrete second processing of a command whose
subject author already has a `welcome` record produces no reply and no
vote. -/
theorem c5_witness :
    countReplies (handle_command envAlice dbAliceA postCmdAliceB).2.1 = 0
    ∧ countVotes (handle_command envAlice dbAliceA postCmdAliceB).2.1 = 0 :=
  c5_second_processing_no_side_effects envAlice dbAliceA postCmdAliceB
    (by
      intro mp hmp
      have h2 : rootAliceB = mp := by
        simpa [envAlice, postCmdAliceB] using hmp
      subst h2
      decide)

/-- Claim C6: checkpoint writes of any run form a consecutive ascending
run starting at checkpoint+1 (hence the persisted checkpoint is
monotonically non-decreasing and blocks are processed in strictly
ascending order with no skips among committed numbers); in the concrete
scenario head=100, stored checkpoint=95, the loop checkpoints exactly
96,97,98,99,100 and the checkpoint file ends at 100. -/
theorem c6_checkpoint_ascending :
    (∀ (env : Env) (fetch : Nat → Nat → Option Block) (db : DB) (heads : List Nat)
       (last : Nat),
       ∃ k, checkpointWrites (run_loop env fetch db heads last).2.1 =
         consecFrom (last + 1) k)
    ∧ (∀ k start, List.Chain' (fun a b => a < b) (consecFrom start k))
    ∧ checkpointWrites
        (run envPlain fetchOK dbEmpty [100, 100, 100, 100, 100, 100] (some 95) 100 none).2.1 =
      [96, 97, 98, 99, 100]
    ∧ (run envPlain fetchOK dbEmpty [100, 100, 100, 100, 100, 100] (some 95) 100 none).2.2.2 =
      100 := by
  have hpb : ∀ (db : DB) (n : Nat), process_block envPlain (fetchOK n) db n 0 =
      (db, [Effect.fetch_attempt n, Effect.log_info "Processing block", Effect.save_state],
       none) := by
    intro db n
    unfold process_block
    rfl
  refine ⟨fun env fetch db heads last => run_loop_writes env fetch heads db last,
          fun k start => consecFrom_chain k start, ?_, ?_⟩
  · simp [run, load_checkpoint, run_loop, hpb, checkpointWrites]
  · simp [run, load_checkpoint, run_loop, hpb]

/-- Claim C7: a welcome command that passes the blacklist and
already-welcomed checks but whose resolved subject is not a root post
still composes and submits the reply, then returns before the upvote
step and before any `welcome` record is inserted: the db is unchanged
and the trace holds exactly one reply and no vote. -/
theorem c7_nonroot_subject_reply_without_record (env : Env) (db : DB)
    (post mp : PostData)
    (hbl : post.author ∉ env.blacklisted_users)
    (hm : matchesWelcome env.account post.body = true)
    (hr : env.resolvePost post.root_identifier = some mp)
    (hw : (welcomeFindByAuthor db mp.author).isSome = false)
    (hroot : mp.is_main_post = false) :
    handle_command env db post =
      (db, [Effect.reply mp.author mp.permlink
              (pyReplace env.welcome_message "$username" mp.author) env.account,
            Effect.log_info "Skipping. Not a main post."], none) := by
  unfold handle_command
  simp [hbl, hm, hr, hw, hroot]

/-- Claim C7 witness: concrete non-root subject — the reply is sent, no
vote is cast, and the dedup tables stay empty. -/
theorem c7_witness :
    handle_command envNonRoot dbEmpty postCmdNonRoot =
      (dbEmpty, [Effect.reply "bob" "re-thread" "Welcome bob!" "bot",
                 Effect.log_info "Skipping. Not a main post."], none) := by
  have h := c7_nonroot_subject_reply_without_record envNonRoot dbEmpty postCmdNonRoot
    rootlessSubject (by decide) (by decide) (by decide) rfl rfl
  rw [h]
  decide

/-- Claim C8 counterexample: the claim says a welcome command whose
subject is a different resource B by the same author is not treated as
already handled.  With a `welcome` record for (alice, a) on file, a
command whose subject is alice's other post b is nevertheless skipped:
the lookup is keyed by author alone. -/
theorem c8_counterexample :
    handle_command envAlice dbAliceA postCmdAliceB =
      (dbAliceA, [Effect.log_info "already welcomed. Skipping"], none) := by decide

/-- Claim C8 amended: the already-handled decision for a welcome command
is keyed by the subject's author alone (`find_one(author=...)`): any
`welcome` row with that author — regardless of its resource — makes the
command skip with no side effects. -/
theorem c8_welcome_dedup_author_only (env : Env) (db : DB) (post mp : PostData)
    (row : WelcomeRow)
    (hbl : post.author ∉ env.blacklisted_users)
    (hm : matchesWelcome env.account post.body = true)
    (hr : env.resolvePost post.root_identifier = some mp)
    (hrow : row ∈ db.welcome) (ha : row.author = mp.author) :
    handle_command env db post =
      (db, [Effect.log_info "already welcomed. Skipping"], none) := by
  have hw : (welcomeFindByAuthor db mp.author).isSome = true := by
    simp only [welcomeFindByAuthor, List.find?_isSome]
    exact ⟨row, hrow, by simp [ha]⟩
  unfold handle_command
  simp [hbl, hm, hr, hw]

/-- Claim C8 witness: the author-only skip at the concrete input — a
record for alice's resource `a` suppresses the command on her resource
`b`. -/
theorem c8_witness :
    handle_command envAlice dbAliceA postCmdAliceB =
      (dbAliceA, [Effect.log_info "already welcomed. Skipping"], none) :=
  c8_welcome_dedup_author_only envAlice dbAliceA postCmdAliceB rootAliceB
    { author := "alice", permlink := "a", created_at := "2017-05-01" }
    (by decide) (by decide) (by decide) (by decide) rfl

/-- Claim C9: a command-matching post whose author is blacklisted is
dropped at the first check of `handle_command`: only an info line is
logged, no reply, no vote, and the dedup tables are returned unchanged. -/
theorem c9_blacklisted_author_no_effects (env : Env) (db : DB) (post : PostData)
    (h : post.author ∈ env.blacklisted_users) :
    handle_command env db post =
      (db, [Effect.log_info "User on blacklist. Skipping"], none)
    ∧ countReplies (handle_command env db post).2.1 = 0
    ∧ countVotes (handle_command env db post).2.1 = 0 := by
  have h1 : handle_command env db post =
      (db, [Effect.log_info "User on blacklist. Skipping"], none) := by
    unfold handle_command
    simp [h]
  exact ⟨h1, by simp [h1, countReplies], by simp [h1, countVotes]⟩

/-- Claim C9 witness: the blacklisted `spammer`'s first command produces
no side effects and no dedup rows. -/
theorem c9_witness :
    handle_command envBlk dbEmpty postSpam =
      (dbEmpty, [Effect.log_info "User on blacklist. Skipping"], none)
    ∧ countReplies (handle_command envBlk dbEmpty postSpam).2.1 = 0
    ∧ countVotes (handle_command envBlk dbEmpty postSpam).2.1 = 0 :=
  c9_blacklisted_author_no_effects envBlk dbEmpty postSpam (by decide)

/-- Claim C10: `check_block` never dispatches a comment that is a
root/main post (so a welcome command written inside a root post produces
no side effects), and never dispatches a comment whose body lacks the
literal `@account` mention: both are skipped exactly as if the operation
were absent. -/
theorem c10_main_posts_not_dispatched (env : Env) (db : DB) (post : PostData)
    (rest : List Op) :
    (post.is_main_post = true →
      check_block env db (Op.comment (some post) :: rest) = check_block env db rest)
    ∧ (strContains ("@" ++ env.account) post.body = false →
      check_block env db (Op.comment (some post) :: rest) = check_block env db rest) := by
  constructor
  · intro h
    conv_lhs => unfold check_block
    simp [h]
  · intro h
    conv_lhs => unfold check_block
    by_cases hm : post.is_main_post <;> simp [hm, h]

/-- Claim C10 witness: a root post containing a welcome command, and a
reply without the mention, are both skipped. -/
theorem c10_witness :
    check_block envPlain dbEmpty [Op.comment (some rootWithCmd)] =
      check_block envPlain dbEmpty []
    ∧ check_block envPlain dbEmpty [Op.comment (some replyNoMention)] =
      check_block envPlain dbEmpty [] :=
  ⟨(c10_main_posts_not_dispatched envPlain dbEmpty rootWithCmd []).1 rfl,
   (c10_main_posts_not_dispatched envPlain dbEmpty replyNoMention []).2 (by decide)⟩

end Communitybot
